import Mathlib

/-!
Shallow embedding of the n8n-manager remote host registry / credential vault
(`src/backup_ui/services/remote_host_service.py`, `src/backup_ui/api/hosts.py`)
and of the backup/restore orchestrator (`src/backup_ui/services/backup_service.py`).

Python dictionaries with a fixed key set are modelled as structures whose
optional keys are `Option` fields (absent key = `none`); the JSON secrets
container is an association list with unique keys; filesystem persistence is
modelled by explicit state passing, with `savedConfig` / `savedSecrets` flags
recording whether the corresponding file write was performed by an operation.
Remote effects (SSH command execution, SFTP transfers) are inputs to the
orchestrator functions, which return the emitted progress lines together with
the list of remote commands actually executed.
-/

namespace N8nMgr

/-- Python truthiness of an optional string (`if x:` for `x: Optional[str]`):
false for `None` and for the empty string. -/
def strTruthy : Option String → Bool
  | none => false
  | some s => s ≠ ""

/-- Rendering of an optional string inside an f-string, as Python does
(`None` renders as the text "None"). -/
def optStr : Option String → String
  | none => "None"
  | some s => s

/-- Rendering of an optional integer inside an f-string. -/
def optIntStr : Option Int → String
  | none => "None"
  | some n => toString n

/-- Secret record for one host: the value stored in the encrypted vault
container under the host id (`password` / `ssh_key_path` / `api_key` keys,
each possibly absent). -/
structure SecretRec where
  password : Option String := none
  ssh_key_path : Option String := none
  api_key : Option String := none
deriving Repr, DecidableEq

/-- One host record of `remote_hosts.json`, with the fixed key set written by
`add_host` / `update_host`. The trailing three optional fields model raw
secret keys that could be present in the registry document itself; the
service never writes them, and `list_hosts` filters them out. -/
structure HostConfig where
  id : String
  name : String
  hostType : String
  host : Option String
  port : Nat
  username : Option String
  auth_type : String
  n8n_url : String
  default_instance : String
  manager_path : String
  enabled : Bool
  created_at : String
  password : Option String := none
  ssh_key : Option String := none
  api_key : Option String := none
deriving Repr, DecidableEq

/-- The caller-supplied `host_data` dict of `add_host` / `update_host`
(a key is present iff the field is `some`). -/
structure HostData where
  name : Option String := none
  hostType : Option String := none
  host : Option String := none
  port : Option Nat := none
  username : Option String := none
  auth_type : Option String := none
  password : Option String := none
  ssh_key_path : Option String := none
  n8n_url : Option String := none
  default_instance : Option String := none
  manager_path : Option String := none
  api_key : Option String := none
  enabled : Option Bool := none
deriving Repr, DecidableEq

/-- The decrypted secrets container: a JSON object mapping host id to secret
record, modelled as an association list with unique keys. -/
abbrev Secrets := List (String × SecretRec)

/-- Dictionary lookup `secrets.get(host_id)`. -/
def getEntry (m : Secrets) (k : String) : Option SecretRec :=
  (List.find? (fun p => p.1 == k) m).map (·.2)

/-- Dictionary membership `host_id in secrets`. -/
def hasKey (m : Secrets) (k : String) : Bool :=
  List.any m (fun p => p.1 == k)

/-- Dictionary assignment `secrets[host_id] = v` (replace in place, or append
a new key). -/
def setEntry (m : Secrets) (k : String) (v : SecretRec) : Secrets :=
  match m with
  | [] => [(k, v)]
  | p :: t => if p.1 == k then (k, v) :: t else p :: setEntry t k v

/-- Dictionary deletion `del secrets[host_id]`. -/
def eraseEntry (m : Secrets) (k : String) : Secrets :=
  List.filter (fun p => p.1 != k) m

/-- Combined persisted state of the service: the `remote_hosts.json` document
and the decrypted contents of the `.remote_secrets` container. -/
structure ServiceState where
  hosts : List HostConfig
  secrets : Secrets
deriving Repr, DecidableEq

/-! ### Vault loading (`RemoteHostService._load_secrets`)

The secrets file on disk is `none` when absent, otherwise its raw bytes.
Fernet decryption (plus UTF-8 decoding) and `json.loads` are abstracted as
fallible functions; each `none` result models the exception the corresponding
Python call would raise, which `_load_secrets` catches. -/

/-- Embedding of `_load_secrets`: absent file, empty file, failed decryption
and failed JSON parsing all degrade to the empty mapping; the function is
total, modelling that the Python method never raises. -/
def loadSecrets (file : Option (List UInt8)) (decrypt : List UInt8 → Option String)
    (parseJson : String → Option Secrets) : Secrets :=
  match file with
  | none => []
  | some data =>
    if data.isEmpty then []
    else
      match decrypt data with
      | none => []
      | some s =>
        match parseJson s with
        | none => []
        | some m => m

/-- Vault `get(hostId)`: look the host id up in the loaded container
(the `secrets.get(host_id)` pattern used throughout the service). -/
def vaultGet (file : Option (List UInt8)) (decrypt : List UInt8 → Option String)
    (parseJson : String → Option Secrets) (hostId : String) : Option SecretRec :=
  getEntry (loadSecrets file decrypt parseJson) hostId

/-! ### Registry operations -/

/-- A host entry as returned by `list_hosts`: the record with the secret keys
filtered out, plus the three presence flags the method adds. -/
structure HostSummary where
  host : HostConfig
  has_password : Bool
  has_ssh_key : Bool
  has_api_key : Bool
deriving Repr, DecidableEq

/-- The dict comprehension of `list_hosts`, dropping the keys
`password`, `ssh_key` and `api_key` from a host record. -/
def stripSecrets (h : HostConfig) : HostConfig :=
  { h with password := none, ssh_key := none, api_key := none }

/-- Embedding of `RemoteHostService.list_hosts`: secret keys are removed and
the flags are computed from the record itself (`auth_type` comparisons and
`api_key in host`); the vault is not consulted. -/
def listHosts (st : ServiceState) : List HostSummary :=
  st.hosts.map (fun h =>
    { host := stripSecrets h
      has_password := h.auth_type == "password"
      has_ssh_key := h.auth_type == "key"
      has_api_key := h.api_key.isSome })

/-- A host as returned by `get_host`: the record (copied verbatim) plus flags
computed from the vault entry via Python truthiness. -/
structure HostDetail where
  host : HostConfig
  has_password : Bool
  has_ssh_key_path : Bool
  has_api_key : Bool
deriving Repr, DecidableEq

/-- Embedding of `RemoteHostService.get_host`. -/
def getHost (st : ServiceState) (hostId : String) : Option HostDetail :=
  match st.hosts.find? (fun h => h.id == hostId) with
  | none => none
  | some h =>
    let hs := (getEntry st.secrets hostId).getD {}
    some { host := h
           has_password := strTruthy hs.password
           has_ssh_key_path := strTruthy hs.ssh_key_path
           has_api_key := strTruthy hs.api_key }

/-- The secret-extraction block of `add_host` / `update_host`: pop the three
secret keys out of the input dict, returning the extracted secret record and
the residual (mutated) dict. -/
def popSecrets (d : HostData) : SecretRec × HostData :=
  ({ password := d.password, ssh_key_path := d.ssh_key_path, api_key := d.api_key },
   { d with password := none, ssh_key_path := none, api_key := none })

/-- The `host_config` dict built by `add_host` (defaults as in the source;
`n8n_url` defaults to an f-string rendering of the possibly-absent host). -/
def mkHostConfig (d : HostData) (hostId now : String) : HostConfig :=
  { id := hostId
    name := d.name.getD "Unnamed Host"
    hostType := d.hostType.getD "ssh"
    host := d.host
    port := d.port.getD 22
    username := d.username
    auth_type := d.auth_type.getD "password"
    n8n_url := d.n8n_url.getD ("http://" ++ optStr d.host ++ ":5678")
    default_instance := d.default_instance.getD "n8n"
    manager_path := d.manager_path.getD "~/n8n-manager"
    enabled := d.enabled.getD true
    created_at := now }

/-- Result of an add operation: outcome, new state, which files were written,
and the residual input dict after the secret pops (the caller's dict is
mutated in place in the source). -/
structure AddResult where
  success : Bool
  hostId : Option String := none
  error : Option String := none
  state : ServiceState
  savedConfig : Bool := false
  savedSecrets : Bool := false
  residual : HostData
deriving Repr, DecidableEq

/-- Embedding of `RemoteHostService.add_host`. The generated uuid and the
creation timestamp are inputs (`hostId`, `now`). -/
def addHost (st : ServiceState) (hostData : HostData) (hostId now : String) : AddResult :=
  let hostSecrets := (popSecrets hostData).1
  let residual := (popSecrets hostData).2
  let cfg := mkHostConfig residual hostId now
  { success := true
    hostId := some hostId
    state := { hosts := st.hosts ++ [cfg], secrets := setEntry st.secrets hostId hostSecrets }
    savedConfig := true
    savedSecrets := true
    residual := residual }

/-- The pydantic `AddHostRequest` model of the API layer (defaults as in the
source; optional fields may be `None`). -/
structure AddHostRequest where
  name : String
  reqType : String := "ssh"
  host : String
  port : Nat := 22
  username : String
  auth_type : String := "password"
  password : Option String := none
  ssh_key_path : Option String := none
  n8n_url : Option String := none
  default_instance : String := "n8n"
  api_key : Option String := none
  enabled : Bool := true
deriving Repr, DecidableEq

/-- The `request.dict(exclude_none=True)` conversion of the API route:
mandatory fields are always present, optional ones only when not `None`.
The pydantic model has no `manager_path` field. -/
def reqToHostData (r : AddHostRequest) : HostData :=
  { name := some r.name
    hostType := some r.reqType
    host := some r.host
    port := some r.port
    username := some r.username
    auth_type := some r.auth_type
    password := r.password
    ssh_key_path := r.ssh_key_path
    n8n_url := r.n8n_url
    default_instance := some r.default_instance
    manager_path := none
    api_key := r.api_key
    enabled := some r.enabled }

/-- Embedding of the `POST /api/hosts/` route (`add_host` in
`api/hosts.py`): auth-mode validation happens before the service call, and a
validation failure returns a 400 without touching any state. -/
def apiAddHost (st : ServiceState) (r : AddHostRequest) (hostId now : String) : AddResult :=
  if r.auth_type == "password" && !(strTruthy r.password) then
    { success := false
      error := some "Password required for password authentication"
      state := st
      residual := reqToHostData r }
  else if r.auth_type == "key" && !(strTruthy r.ssh_key_path) then
    { success := false
      error := some "SSH key path required for key authentication"
      state := st
      residual := reqToHostData r }
  else
    addHost st (reqToHostData r) hostId now

/-- The `updated_host` dict built by `update_host`: every field falls back to
the existing record, `id` is the looked-up id and `created_at` is copied;
raw secret keys of the existing record are not carried over (the new dict is
built from the fixed key list only). -/
def applyUpdate (h : HostConfig) (d : HostData) (hostId : String) : HostConfig :=
  { id := hostId
    name := d.name.getD h.name
    hostType := d.hostType.getD h.hostType
    host := d.host <|> h.host
    port := d.port.getD h.port
    username := d.username <|> h.username
    auth_type := d.auth_type.getD h.auth_type
    n8n_url := d.n8n_url.getD h.n8n_url
    default_instance := d.default_instance.getD h.default_instance
    manager_path := d.manager_path.getD h.manager_path
    enabled := d.enabled.getD h.enabled
    created_at := h.created_at
    password := none
    ssh_key := none
    api_key := none }

/-- Secret merge of `update_host`: keys present in the update replace the
stored ones, the rest are kept. -/
def mergeSecrets (old : SecretRec) (d : HostData) : SecretRec :=
  { password := d.password <|> old.password
    ssh_key_path := d.ssh_key_path <|> old.ssh_key_path
    api_key := d.api_key <|> old.api_key }

/-- Replace the first host with the given id by its updated version,
returning the new list and the old record (`none` when no host matches,
mirroring the index search of `update_host`). -/
def updateHostsList (l : List HostConfig) (hostId : String) (d : HostData) :
    Option (List HostConfig × HostConfig) :=
  match l with
  | [] => none
  | h :: t =>
    if h.id == hostId then some (applyUpdate h d hostId :: t, h)
    else
      match updateHostsList t hostId d with
      | none => none
      | some (t2, old) => some (h :: t2, old)

/-- Result of an update or delete operation. -/
structure OpResult where
  success : Bool
  error : Option String := none
  state : ServiceState
  savedConfig : Bool := false
  savedSecrets : Bool := false
deriving Repr, DecidableEq

/-- Embedding of `RemoteHostService.update_host`. -/
def updateHost (st : ServiceState) (hostId : String) (d : HostData) : OpResult :=
  match updateHostsList st.hosts hostId d with
  | none => { success := false, error := some "Host not found", state := st }
  | some (hosts2, _old) =>
    let hostSecrets := mergeSecrets ((getEntry st.secrets hostId).getD {}) d
    { success := true
      state := { hosts := hosts2, secrets := setEntry st.secrets hostId hostSecrets }
      savedConfig := true
      savedSecrets := true }

/-- Embedding of `RemoteHostService.delete_host`: the host list is filtered,
a not-found result is returned when nothing was removed, and the secrets
container is re-encrypted and written only when the id was present in it. -/
def deleteHost (st : ServiceState) (hostId : String) : OpResult :=
  let hosts2 := st.hosts.filter (fun h => !(h.id == hostId))
  if hosts2.length == st.hosts.length then
    { success := false, error := some "Host not found", state := st }
  else
    if hasKey st.secrets hostId then
      { success := true
        state := { hosts := hosts2, secrets := eraseEntry st.secrets hostId }
        savedConfig := true
        savedSecrets := true }
    else
      { success := true
        state := { hosts := hosts2, secrets := st.secrets }
        savedConfig := true
        savedSecrets := false }

/-! ### Textual progress helpers of `BackupService`

String primitives are implemented over character lists so that concrete
instances evaluate inside the kernel. -/

/-- Python `str.strip()` whitespace test. -/
def isWs (c : Char) : Bool :=
  c == ' ' || c == '\t' || c == '\n' || c == '\r' || c == '\x0b' || c == '\x0c'

/-- Python `str.strip()`. -/
def trimStr (s : String) : String :=
  String.mk (((s.data.dropWhile isWs).reverse.dropWhile isWs).reverse)

/-- Split a character list at every occurrence of a separator character. -/
def splitCharAux (sep : Char) : List Char → List Char → List (List Char)
  | [], acc => [acc.reverse]
  | c :: cs, acc =>
    if c == sep then acc.reverse :: splitCharAux sep cs []
    else splitCharAux sep cs (c :: acc)

/-- Python `s.split('\n')`. -/
def splitLines (s : String) : List String :=
  (splitCharAux '\n' s.data []).map String.mk

/-- Split a character list at every occurrence of a non-empty separator
substring (fuel-driven recursion; fuel at least the list length plus one is
exact). -/
def splitOnAuxL (sep : List Char) : Nat → List Char → List Char → List (List Char)
  | 0, cs, acc => [acc.reverse ++ cs]
  | _ + 1, [], acc => [acc.reverse]
  | fuel + 1, c :: cs, acc =>
    if sep.isPrefixOf (c :: cs) then
      acc.reverse :: splitOnAuxL sep fuel (List.drop sep.length (c :: cs)) []
    else splitOnAuxL sep fuel cs (c :: acc)

/-- Python `s.split(sep)` for a non-empty separator string. -/
def splitOnStr (sep : String) (s : String) : List String :=
  (splitOnAuxL sep.data (s.data.length + 1) s.data []).map String.mk

/-- Boolean string-head test over character lists (Python `startswith`). -/
def startsWithStr (p s : String) : Bool :=
  p.data.isPrefixOf s.data

/-- Recognizer for the terminal sentinel lines of the progress contract:
a line beginning with SUCCESS or with ERROR. -/
def isSentinelLine (s : String) : Bool :=
  startsWithStr "SUCCESS" s || startsWithStr "ERROR" s

/-- Character classes of the ANSI escape-sequence pattern used by
`_strip_ansi`: ESC, an intro byte (at-sign through underscore), intermediate
bytes (digit zero through question mark), separator bytes (space through
slash), and a final byte (at-sign through tilde). -/
def isAnsiIntro (c : Char) : Bool := '@' ≤ c && c ≤ '_'

/-- Intermediate bytes of the ANSI pattern. -/
def isAnsiInter (c : Char) : Bool := '0' ≤ c && c ≤ '?'

/-- Separator bytes of the ANSI pattern. -/
def isAnsiSep (c : Char) : Bool := ' ' ≤ c && c ≤ '/'

/-- Final bytes of the ANSI pattern. -/
def isAnsiFinal (c : Char) : Bool := '@' ≤ c && c ≤ '~'

/-- Left-to-right deletion of every match of the ANSI pattern (the
`ansi_escape.sub` call), fuel-driven; fuel at least the list length is
exact. -/
def ansiSub (fuel : Nat) (l : List Char) : List Char :=
  match fuel, l with
  | 0, cs => cs
  | _ + 1, [] => []
  | fuel + 1, c :: cs =>
    if c = '\x1b' then
      match cs with
      | c2 :: cs2 =>
        if isAnsiIntro c2 then
          match (cs2.dropWhile isAnsiInter).dropWhile isAnsiSep with
          | d :: rest => if isAnsiFinal d then ansiSub fuel rest else c :: ansiSub fuel cs
          | [] => c :: ansiSub fuel cs
        else c :: ansiSub fuel cs
      | [] => [c]
    else c :: ansiSub fuel cs

/-- Embedding of `BackupService._strip_ansi`: delete ANSI escape sequences,
then strip surrounding whitespace. -/
def stripAnsi (s : String) : String :=
  trimStr (String.mk (ansiSub s.data.length s.data))

/-- The per-line cleaning applied at every yield site:
`self._strip_ansi(line.strip())`. -/
def cleanLine (l : String) : String :=
  stripAnsi (trimStr l)

/-- Clean a list of raw lines and keep the non-empty results (the
`if clean_line: yield clean_line` loop over a line sequence). -/
def streamLines (lines : List String) : List String :=
  (lines.map cleanLine).filter (fun l => l ≠ "")

/-- The artifact-marker scan of `_backup_remote` applied to one cleaned
line: a line containing a marker replaces the remembered filename by the
trimmed text after the first marker occurrence. -/
def scanMarker (acc : Option String) (cl : String) : Option String :=
  let pB := splitOnStr "Backup compressed to:" cl
  if 2 ≤ pB.length then some (trimStr (pB.getD 1 ""))
  else
    let pE := splitOnStr "Enhanced backup compressed to:" cl
    if 2 ≤ pE.length then some (trimStr (pE.getD 1 "")) else acc

/-- The output loop of `_backup_remote`: split the captured remote stdout on
newlines, clean each line, keep the non-empty ones in order, and scan each
yielded line for the artifact marker. -/
def processOutput (raw : String) : List String × Option String :=
  (splitLines raw).foldl
    (fun acc line =>
      let cl := cleanLine line
      if cl ≠ "" then (acc.1 ++ [cl], scanMarker acc.2 cl) else acc)
    ([], none)

/-- Result of `execute_remote_command` (the dict keys `success`,
`exit_code`, `output`, `error`; the exception path carries only `success`
and `error`). -/
structure CmdResult where
  success : Bool
  exit_code : Option Int := none
  output : Option String := none
  error : Option String := none
deriving Repr, DecidableEq

/-- Result of `upload_file` / `download_file`. -/
structure UploadResult where
  success : Bool
  error : Option String := none
deriving Repr, DecidableEq

/-- The guarded stdout processing of `_backup_remote`
(`if result.get('output'):`). -/
def outPart (o : Option String) : List String × Option String :=
  match o with
  | some s => if s ≠ "" then processOutput s else ([], none)
  | none => ([], none)

/-- The guarded stdout processing of `_restore_remote` (no marker scan). -/
def cleanedOutput (o : Option String) : List String :=
  match o with
  | some s => if s ≠ "" then streamLines (splitLines s) else []
  | none => []

/-- The guarded stderr processing of both remote workflows: each non-empty
cleaned stderr line is yielded with the `REMOTE ERROR: ` tag. -/
def mkErrLines (e : Option String) : List String :=
  match e with
  | some s => if s ≠ "" then (streamLines (splitLines s)).map (fun l => "REMOTE ERROR: " ++ l) else []
  | none => []

/-! ### Local streaming executor (`create_backup` / `restore_backup`,
local branch) -/

/-- Outcome of the local child process: its streamed lines and exit code, or
the exception raised while executing it. -/
inductive ProcOutcome where
  | ok (lines : List String) (exitCode : Int)
  | exn (msg : String)
deriving Repr, DecidableEq

/-- The terminal line of a local backup, chosen from the exit code. -/
def backupSentinel (code : Int) : String :=
  if code = 0 then "SUCCESS: Backup completed successfully!"
  else "ERROR: Backup failed with exit code " ++ toString code

/-- The terminal line of a local CLI restore, chosen from the exit code. -/
def restoreSentinel (code : Int) : String :=
  if code = 0 then "SUCCESS: Restore completed successfully!"
  else "ERROR: Restore failed with exit code " ++ toString code

/-- Embedding of the local branch of `create_backup` (script selection and
command building are summarised by the script path and existence flag; the
streamed child output and exit status are the `proc` input). -/
def createBackupLocal (scriptPath : String) (scriptExists : Bool) (proc : ProcOutcome) :
    List String :=
  if !scriptExists then ["ERROR: Script not found: " ++ scriptPath]
  else
    match proc with
    | .ok lines code => streamLines lines ++ [backupSentinel code]
    | .exn msg => ["ERROR: Failed to execute backup: " ++ msg]

/-- Embedding of the CLI portion of the local branch of `restore_backup`. -/
def restoreCli (scriptPath : String) (scriptExists : Bool) (proc : ProcOutcome) :
    List String :=
  if !scriptExists then ["ERROR: Script not found: " ++ scriptPath]
  else
    match proc with
    | .ok lines code => streamLines lines ++ [restoreSentinel code]
    | .exn msg => ["ERROR: Failed to execute restore: " ++ msg]

/-- Outcome of one workflow import request in `_restore_via_api`: an HTTP
status, or the exception raised while reading or posting the file. -/
inductive ImportOutcome where
  | http (status : Nat)
  | exn (msg : String)
deriving Repr, DecidableEq

/-- Abstracted filesystem environment of `_restore_via_api`: whether the
backup was found, whether it is a compressed file (triggering extraction),
whether a `workflows` directory was located (and its rendered path), and the
workflow files with the outcome of each import. -/
structure ApiEnv where
  backupFound : Bool
  isCompressedFile : Bool
  workflowsDirFound : Bool
  workflowsDirName : String
  files : List (String × ImportOutcome)
deriving Repr, DecidableEq

/-- The `"=" * 60` separator of the import summary. -/
def eqBanner : String := String.mk (List.replicate 60 '=')

/-- The per-file import loop of `_restore_via_api`, carrying the 1-based
index and the success/failure counters, and ending with the summary block. -/
def importLines (total : Nat) : List (String × ImportOutcome) → Nat → Nat → Nat → List String
  | [], _, s, f =>
    ["", eqBanner, "Import Summary: " ++ toString s ++ " succeeded, " ++ toString f ++ " failed",
     eqBanner]
  | (name, out) :: rest, i, s, f =>
    ("[" ++ toString i ++ "/" ++ toString total ++ "] Importing: " ++ name ++ "...") ::
      match out with
      | .http status =>
        if status == 200 || status == 201 then
          ("  ✓ " ++ name ++ " imported successfully") :: importLines total rest (i + 1) (s + 1) f
        else
          ("  ✗ " ++ name ++ " failed: HTTP " ++ toString status) ::
            importLines total rest (i + 1) s (f + 1)
      | .exn m =>
        ("  ✗ " ++ name ++ " error: " ++ m) :: importLines total rest (i + 1) s (f + 1)

/-- Embedding of `_restore_via_api`. -/
def restoreViaApi (backupName : String) (env : ApiEnv) : List String :=
  if !env.backupFound then ["ERROR: Backup not found: " ++ backupName]
  else
    let pre := if env.isCompressedFile then ["Extracting backup..."] else []
    if !env.workflowsDirFound then pre ++ ["ERROR: Workflows directory not found in backup"]
    else
      pre ++
        ["Found workflows directory: " ++ env.workflowsDirName,
         "Importing " ++ toString env.files.length ++ " workflows via API..."] ++
        importLines env.files.length env.files 1 0 0

/-- The version-detection result dict of `detect_n8n_version`, as consumed
by `restore_backup`. -/
structure VersionDetect where
  success : Bool
  version : String := ""
  is_v2_plus : Bool := false
deriving Repr, DecidableEq

/-- Embedding of the local branch of `restore_backup`: version detection runs
only when a container name is given; a detected v2 with an API key delegates
to the API-based restore, otherwise the CLI path runs (with a warning block
when v2 was detected without a key). -/
def restoreBackupLocal (containerName : Option String) (apiKey : Option String)
    (detect : VersionDetect) (env : ApiEnv) (backupName : String)
    (scriptPath : String) (scriptExists : Bool) (proc : ProcOutcome) : List String :=
  match containerName with
  | none => restoreCli scriptPath scriptExists proc
  | some _ =>
    let pre := ["Detecting n8n version..."]
    if detect.success && detect.is_v2_plus then
      let pre2 := pre ++ ["Detected n8n v" ++ detect.version ++ " (v2+)"]
      if strTruthy apiKey then
        pre2 ++ ["Using API-based restore for v2..."] ++ restoreViaApi backupName env
      else
        pre2 ++
          ["WARNING: n8n v2 detected but no API key provided",
           "API-based restore is recommended for v2. Please provide an API key.",
           "Attempting CLI restore (may have issues with v2)..."] ++
          restoreCli scriptPath scriptExists proc
    else pre ++ restoreCli scriptPath scriptExists proc

/-! ### Remote workflows (`_backup_remote` / `_restore_remote`)

Each workflow returns the emitted progress lines together with the list of
remote commands passed to `execute_remote_command`, in execution order. -/

/-- Python `container_name or 'n8n'`. -/
def pyOr (o : Option String) (d : String) : String :=
  match o with
  | some s => if s == "" then d else s
  | none => d

/-- The `setup_cmd` of `_backup_remote`. -/
def chmodBackup : String := "chmod +x /tmp/backup_n8n.sh /tmp/docker_backup.sh"

/-- The `backup_cmd` composed by `_backup_remote`. -/
def buildBackupCmd (backupType : String) (containerName : Option String)
    (includeVolumes includeLogs : Bool) : String :=
  if backupType == "enhanced" then
    let c := "N8N_BACKUP_DIR=/tmp bash /tmp/docker_backup.sh " ++ pyOr containerName "n8n"
    let c2 := if includeVolumes then c ++ " --include-volumes" else c
    if includeLogs then c2 ++ " --include-logs" else c2
  else
    let c := "N8N_BACKUP_DIR=/tmp bash /tmp/backup_n8n.sh " ++ backupType
    if strTruthy containerName && backupType == "docker" then
      c ++ " " ++ optStr containerName
    else c

/-- The `full_cmd` of `_backup_remote`. -/
def backupFullCmd (backupType : String) (containerName : Option String)
    (includeVolumes includeLogs : Bool) : String :=
  chmodBackup ++ " && " ++ buildBackupCmd backupType containerName includeVolumes includeLogs

/-- Embedding of `BackupService._backup_remote`. The helper-script upload
results are received but, as in the source, never inspected; the remote
execution result and the artifact download result are the other effect
inputs. Returns progress lines and the executed remote commands. -/
def backupRemote (hostId backupType : String) (containerName : Option String)
    (includeVolumes includeLogs : Bool) (backupsDir : String)
    (helperUploads : String → UploadResult) (exec : CmdResult)
    (download : UploadResult) : List String × List String :=
  let fullCmd := backupFullCmd backupType containerName includeVolumes includeLogs
  let pre := ["INFO: Starting remote backup from host " ++ hostId ++ "...",
              "INFO: Uploading backup scripts to remote host...",
              "INFO: Executing remote backup command: " ++ fullCmd]
  let outLines := (outPart exec.output).1
  let errLines := mkErrLines exec.error
  if !exec.success || (outPart exec.output).2.isNone then
    (pre ++ outLines ++ errLines ++
       ["ERROR: Remote backup failed (exit code: " ++ optIntStr exec.exit_code ++ ")"],
     [fullCmd])
  else
    let f := ((outPart exec.output).2).getD ""
    let remotePath := "/tmp/" ++ f
    let localPath := backupsDir ++ "/" ++ f
    let cleanupCmd := "rm " ++ remotePath ++ " /tmp/backup_n8n.sh /tmp/docker_backup.sh"
    let dl := pre ++ outLines ++ errLines ++
      ["INFO: Downloading backup " ++ f ++ " from remote host..."] ++
      (if download.success then ["SUCCESS: Backup downloaded to " ++ localPath]
       else ["ERROR: Failed to download backup: " ++ optStr download.error]) ++
      ["INFO: Cleaning up remote temporary files..."]
    ((if download.success then dl ++ ["SUCCESS: Remote backup process completed!"] else dl),
     [fullCmd, cleanupCmd])

/-- Strip the `.tar.gz` / `.zip` extension, as both remote workflows do. -/
def stripExt (name : String) : String :=
  if (".tar.gz".data).isSuffixOf name.data then String.mk (name.data.take (name.data.length - 7))
  else if (".zip".data).isSuffixOf name.data then String.mk (name.data.take (name.data.length - 4))
  else name

/-- The `setup_cmd` of `_restore_remote`. -/
def chmodRestore : String := "chmod +x /tmp/restore_n8n.sh /tmp/docker_restore.sh"

/-- The `restore_cmd` composed by `_restore_remote`. -/
def buildRestoreCmd (restoreType : String) (backupNameNoExt : String)
    (containerName : Option String) (recreate : Bool) : String :=
  if restoreType == "enhanced" then
    let c := "N8N_BACKUP_DIR=/tmp bash /tmp/docker_restore.sh " ++ backupNameNoExt ++
      " --non-interactive"
    let c2 := if strTruthy containerName then c ++ " " ++ optStr containerName else c
    if recreate then c2 ++ " --recreate-container" else c2
  else
    let c := "N8N_BACKUP_DIR=/tmp bash /tmp/restore_n8n.sh --non-interactive " ++ restoreType ++
      " " ++ backupNameNoExt
    if strTruthy containerName then c ++ " " ++ optStr containerName else c

/-- Embedding of `BackupService._restore_remote`. `backupFile` is the name of
the backup file located on disk (`none` when the search failed); helper
uploads are received but never inspected, while the backup-artifact upload
result is checked. Returns progress lines and the executed remote
commands. -/
def restoreRemote (backupName restoreType : String) (containerName : Option String)
    (recreate : Bool) (hostId : String) (backupFile : Option String)
    (helperUploads : String → UploadResult) (artifactUpload : UploadResult)
    (exec : CmdResult) : List String × List String :=
  let pre := ["INFO: Starting remote restore to host " ++ hostId ++ " (Zero-Install Mode)..."]
  match backupFile with
  | none => (pre ++ ["ERROR: Backup file " ++ backupName ++ " not found or is a directory"], [])
  | some fname =>
    let remoteBackupPath := "/tmp/" ++ fname
    let pre2 := pre ++ ["INFO: Uploading restore scripts to remote host...",
                        "INFO: Uploading backup " ++ fname ++ " to remote host..."]
    if !artifactUpload.success then
      (pre2 ++ ["ERROR: Failed to upload backup: " ++ optStr artifactUpload.error], [])
    else
      let fullCmd := chmodRestore ++ " && " ++
        buildRestoreCmd restoreType (stripExt fname) containerName recreate
      let pre3 := pre2 ++ ["SUCCESS: Backup uploaded successfully.",
                           "INFO: Executing remote restore command: " ++ fullCmd]
      let outLines := cleanedOutput exec.output
      let errLines := mkErrLines exec.error
      let stat := if exec.success then ["SUCCESS: Remote restore completed successfully!"]
                  else ["ERROR: Remote restore failed with exit code " ++ optIntStr exec.exit_code]
      let cleanupCmd := "rm " ++ remoteBackupPath ++ " /tmp/restore_n8n.sh /tmp/docker_restore.sh"
      (pre3 ++ outLines ++ errLines ++ stat, [fullCmd, cleanupCmd])

/-! ### Concrete instances used by witnesses and counterexamples -/

/-- A concrete host record as `add_host` would create it. -/
def exHost (hid : String) : HostConfig :=
  { id := hid
    name := "A"
    hostType := "ssh"
    host := some "10.0.0.5"
    port := 22
    username := some "ops"
    auth_type := "password"
    n8n_url := "http://10.0.0.5:5678"
    default_instance := "n8n"
    manager_path := "~/n8n-manager"
    enabled := true
    created_at := "2025-01-01T00:00:00Z" }

/-- A concrete service state with one host and one vault entry. -/
def exState1 : ServiceState :=
  { hosts := [exHost "h1"], secrets := [("h1", { password := some "p" })] }

/-- The add-host input of Scenario A, extended with an API key. -/
def dProd : HostData :=
  { name := some "prod"
    host := some "10.0.0.5"
    username := some "ops"
    auth_type := some "password"
    password := some "x"
    api_key := some "k" }

end N8nMgr

namespace N8nMgr

/-! ## Helper lemmas -/

theorem getEntry_setEntry (m : Secrets) (k : String) (v : SecretRec) :
    getEntry (setEntry m k v) k = some v := by
  induction m with
  | nil => simp [setEntry, getEntry]
  | cons p t ih =>
    by_cases h : (p.1 == k) = true
    · simp [setEntry, h, getEntry]
    · simp only [setEntry, h, if_false, Bool.false_eq_true]
      simpa [getEntry, List.find?, h] using ih

theorem filterNe_length_beq (l : List HostConfig) (hostId : String) :
    ((l.filter fun h => !(h.id == hostId)).length == l.length) =
      !(l.any fun h => h.id == hostId) := by
  cases ha : l.any fun h => h.id == hostId
  · simp only [Bool.not_false]
    exact beq_iff_eq.2 (List.filter_length_eq_length.2 (fun x hx => by
      have hx' := List.any_eq_false.1 ha x hx
      simpa using hx'))
  · simp only [Bool.not_true]
    rw [beq_eq_false_iff_ne]
    intro heq
    obtain ⟨x, hx, hpx⟩ := List.any_eq_true.1 ha
    have := List.filter_length_eq_length.1 heq x hx
    simp [hpx] at this

theorem updateHostsList_find (l : List HostConfig) (hostId : String) (d : HostData)
    (h0 : HostConfig) (hf : l.find? (fun h => h.id == hostId) = some h0) :
    ∃ l2, updateHostsList l hostId d = some (l2, h0) ∧
      l2.find? (fun h => h.id == hostId) = some (applyUpdate h0 d hostId) := by
  induction l with
  | nil => simp [List.find?] at hf
  | cons h t ih =>
    by_cases hc : (h.id == hostId) = true
    · simp only [List.find?, hc] at hf
      obtain rfl : h0 = h := by
        injection hf with he
        exact he.symm
      refine ⟨applyUpdate h0 d hostId :: t, ?_, ?_⟩
      · simp [updateHostsList, hc]
      · simp [List.find?, applyUpdate]
    · simp only [List.find?, Bool.not_eq_true] at hf
      rw [Bool.eq_false_iff.2 hc] at hf
      obtain ⟨l2, hl2, hfind⟩ := ih hf
      refine ⟨h :: l2, ?_, ?_⟩
      · simp [updateHostsList, hc, hl2]
      · simp only [List.find?]
        rw [Bool.eq_false_iff.2 hc]
        exact hfind

/-! ## Claim theorems -/

/-- C5: for every state of the secret file (absent, empty, corrupted
ciphertext, wrong-key ciphertext — the latter two modelled as a failing
decryption — or unparsable plaintext), the vault `get` is a total function
that returns the decrypted secret when decryption and parsing succeed, and
degrades to `none` ("no secrets known") in every failure case instead of
raising. -/
theorem c5_vault_get_never_faults (file : Option (List UInt8))
    (decrypt : List UInt8 → Option String) (parseJson : String → Option Secrets)
    (hostId : String) :
    (file = none → vaultGet file decrypt parseJson hostId = none) ∧
    (file = some [] → vaultGet file decrypt parseJson hostId = none) ∧
    (∀ data, file = some data → decrypt data = none →
      vaultGet file decrypt parseJson hostId = none) ∧
    (∀ data s, file = some data → decrypt data = some s → parseJson s = none →
      vaultGet file decrypt parseJson hostId = none) ∧
    (∀ data s m, file = some data → data ≠ [] → decrypt data = some s → parseJson s = some m →
      vaultGet file decrypt parseJson hostId = getEntry m hostId) := by
  refine ⟨fun h => by simp [vaultGet, loadSecrets, h, getEntry],
          fun h => by simp [vaultGet, loadSecrets, h, getEntry], ?_, ?_, ?_⟩
  · intro data hf hd
    subst hf
    cases data with
    | nil => simp [vaultGet, loadSecrets, getEntry]
    | cons a as => simp [vaultGet, loadSecrets, hd, getEntry]
  · intro data s hf hd hp
    subst hf
    cases data with
    | nil => simp [vaultGet, loadSecrets, getEntry]
    | cons a as => simp [vaultGet, loadSecrets, hd, hp, getEntry]
  · intro data s m hf hne hd hp
    subst hf
    cases data with
    | nil => exact absurd rfl hne
    | cons a as => simp [vaultGet, loadSecrets, hd, hp]

/-- Witness for C5 at concrete inputs: a failing decryption yields `none`,
and a successful decryption and parse yields the recorded secret. -/
theorem c5_witness :
    vaultGet (some [0]) (fun _ => none) (fun _ => none) "h1" = none ∧
    vaultGet (some [0]) (fun _ => some "j")
      (fun _ => some [("h1", { password := some "p" })]) "h1" =
        some { password := some "p" } := by
  constructor
  · exact (c5_vault_get_never_faults (some [0]) (fun _ => none) (fun _ => none) "h1").2.2.1
      [0] rfl rfl
  · have := (c5_vault_get_never_faults (some [0]) (fun _ => some "j")
      (fun _ => some [("h1", { password := some "p" })]) "h1").2.2.2.2
      [0] "j" [("h1", { password := some "p" })] rfl (by simp) rfl rfl
    rw [this]
    rfl

/-- C6: the add route validates the declared auth mode against the secret
fields of the input before calling the service; on validation failure the
add is rejected and neither the registry document nor the vault container is
written. -/
theorem c6_add_validation_blocks_persistence (st : ServiceState) (r : AddHostRequest)
    (hostId now : String)
    (h : (r.auth_type = "password" ∧ strTruthy r.password = false) ∨
         (r.auth_type = "key" ∧ strTruthy r.ssh_key_path = false)) :
    (apiAddHost st r hostId now).success = false ∧
    (apiAddHost st r hostId now).state = st ∧
    (apiAddHost st r hostId now).savedConfig = false ∧
    (apiAddHost st r hostId now).savedSecrets = false := by
  rcases h with ⟨ha, hp⟩ | ⟨ha, hp⟩
  · simp [apiAddHost, ha, hp]
  · simp [apiAddHost, ha, hp]

/-- Witness for C6: a password-mode request without a password is rejected
and the state is untouched. -/
theorem c6_witness :
    ((apiAddHost ⟨[], []⟩ { name := "n", host := "h", username := "u" } "id-1" "t").success
        = false) ∧
    (apiAddHost ⟨[], []⟩ { name := "n", host := "h", username := "u" } "id-1" "t").state
        = ⟨[], []⟩ ∧
    (apiAddHost ⟨[], []⟩ { name := "n", host := "h", username := "u" } "id-1" "t").savedConfig
        = false ∧
    (apiAddHost ⟨[], []⟩ { name := "n", host := "h", username := "u" } "id-1" "t").savedSecrets
        = false :=
  c6_add_validation_blocks_persistence ⟨[], []⟩ { name := "n", host := "h", username := "u" }
    "id-1" "t" (Or.inl ⟨rfl, rfl⟩)

/-- C9: the service-level add pops the three secret fields out of the
caller-supplied dict, so the residual dict carries none of them after the
call, and the popped values form the vault entry stored under the new host
id. -/
theorem c9_add_pops_secret_fields (st : ServiceState) (d : HostData) (hostId now : String) :
    (addHost st d hostId now).residual.password = none ∧
    (addHost st d hostId now).residual.ssh_key_path = none ∧
    (addHost st d hostId now).residual.api_key = none ∧
    (addHost st d hostId now).residual =
      { d with password := none, ssh_key_path := none, api_key := none } ∧
    getEntry (addHost st d hostId now).state.secrets hostId =
      some { password := d.password, ssh_key_path := d.ssh_key_path, api_key := d.api_key } := by
  refine ⟨rfl, rfl, rfl, rfl, ?_⟩
  simp [addHost, popSecrets, getEntry_setEntry]

/-- C2 counterexample: deleting an id that is not present fails with a
not-found outcome rather than succeeding, and deleting a host whose id is
absent from the secret container does not persist the container. -/
theorem c2_counterexample :
    (deleteHost ⟨[], []⟩ "h1").success = false ∧
    (deleteHost ⟨[exHost "h1"], []⟩ "h1").success = true ∧
    (deleteHost ⟨[exHost "h1"], []⟩ "h1").savedSecrets = false := by
  refine ⟨rfl, rfl, rfl⟩

/-- C2 as amended: delete succeeds exactly when the id is present in the
registry; on an absent id it returns a not-found failure and writes nothing;
the secret container is re-encrypted and written only when the id was
present in it. -/
theorem c2_delete_behavior (st : ServiceState) (hostId : String) :
    (deleteHost st hostId).success = (st.hosts.any fun h => h.id == hostId) ∧
    (deleteHost st hostId).savedConfig = (st.hosts.any fun h => h.id == hostId) ∧
    (deleteHost st hostId).savedSecrets =
      ((st.hosts.any fun h => h.id == hostId) && hasKey st.secrets hostId) ∧
    (deleteHost st hostId).state.hosts = (st.hosts.filter fun h => !(h.id == hostId)) ∧
    ((st.hosts.any fun h => h.id == hostId) = false → (deleteHost st hostId).state = st) := by
  have hlen := filterNe_length_beq st.hosts hostId
  cases ha : st.hosts.any fun h => h.id == hostId
  · rw [ha] at hlen
    simp only [Bool.not_false] at hlen
    have hfil : (st.hosts.filter fun h => !(h.id == hostId)) = st.hosts :=
      List.filter_eq_self.2 (fun x hx => by
        have := List.any_eq_false.1 ha x hx
        simpa using this)
    refine ⟨?_, ?_, ?_, ?_, ?_⟩ <;>
      simp [deleteHost, hlen, hfil]
  · rw [ha] at hlen
    simp only [Bool.not_true] at hlen
    cases hk : hasKey st.secrets hostId <;>
      refine ⟨?_, ?_, ?_, ?_, ?_⟩ <;>
        simp [deleteHost, hlen, hk]

/-- C1 counterexample: a host added through the normal flow with both a
password and an API key supplied is listed with `has_api_key = false`, even
though the vault entry for that id does hold an API key — so the list flags
are not computed by cross-referencing the vault. -/
theorem c1_counterexample :
    ((listHosts (addHost ⟨[], []⟩ dProd "id-1" "t").state).map fun s => s.has_api_key)
        = [false] ∧
    strTruthy ((getEntry (addHost ⟨[], []⟩ dProd "id-1" "t").state.secrets "id-1").getD
        {}).api_key = true := by
  refine ⟨rfl, rfl⟩

/-- C1 as amended: the list operation strips the secret fields from every
record, but its presence flags are derived from the registry record alone —
`has_password` and `has_ssh_key` from the record's `auth_type`, `has_api_key`
from an `api_key` key in the record itself, never from the vault; after
adding a host whose auth type is password, the list shows that host with
`has_password = true` and no password field present. -/
theorem c1_list_flags_from_registry :
    (∀ (st : ServiceState) (s : HostSummary), s ∈ listHosts st →
      s.host.password = none ∧ s.host.ssh_key = none ∧ s.host.api_key = none) ∧
    (∀ (st : ServiceState) (h : HostConfig), h ∈ st.hosts →
      ({ host := stripSecrets h
         has_password := h.auth_type == "password"
         has_ssh_key := h.auth_type == "key"
         has_api_key := h.api_key.isSome } : HostSummary) ∈ listHosts st) ∧
    (∀ (st : ServiceState) (d : HostData) (hostId now : String),
      d.auth_type.getD "password" = "password" →
      ∃ s ∈ listHosts (addHost st d hostId now).state,
        s.host.id = hostId ∧ s.has_password = true ∧ s.host.password = none) := by
  refine ⟨?_, ?_, ?_⟩
  · intro st s hs
    simp only [listHosts, List.mem_map] at hs
    obtain ⟨h, _, rfl⟩ := hs
    exact ⟨rfl, rfl, rfl⟩
  · intro st h hh
    exact List.mem_map_of_mem _ hh
  · intro st d hostId now hauth
    refine ⟨_, List.mem_map_of_mem _ (List.mem_append_right _ (List.mem_singleton.2 rfl)), rfl,
      ?_, rfl⟩
    show ((mkHostConfig (popSecrets d).2 hostId now).auth_type == "password") = true
    simp [mkHostConfig, popSecrets, hauth]

/-- Witness for C1's amended theorem at Scenario A's input. -/
theorem c1_witness :
    ∃ s ∈ listHosts (addHost ⟨[], []⟩ dProd "id-1" "t").state,
      s.host.id = "id-1" ∧ s.has_password = true ∧ s.host.password = none :=
  c1_list_flags_from_registry.2.2 ⟨[], []⟩ dProd "id-1" "t" rfl

/-- C7: update on an existing host keeps the id and the creation timestamp,
and every field absent from the update — non-secret or secret — retains its
previously stored value. -/
theorem c7_update_frame (st : ServiceState) (hostId : String) (d : HostData)
    (h0 : HostConfig) (hf : st.hosts.find? (fun h => h.id == hostId) = some h0) :
    ∃ h1, (updateHost st hostId d).state.hosts.find? (fun h => h.id == hostId) = some h1 ∧
      h1.id = h0.id ∧ h1.created_at = h0.created_at ∧
      (d.name = none → h1.name = h0.name) ∧
      (d.hostType = none → h1.hostType = h0.hostType) ∧
      (d.host = none → h1.host = h0.host) ∧
      (d.port = none → h1.port = h0.port) ∧
      (d.username = none → h1.username = h0.username) ∧
      (d.auth_type = none → h1.auth_type = h0.auth_type) ∧
      (d.n8n_url = none → h1.n8n_url = h0.n8n_url) ∧
      (d.default_instance = none → h1.default_instance = h0.default_instance) ∧
      (d.manager_path = none → h1.manager_path = h0.manager_path) ∧
      (d.enabled = none → h1.enabled = h0.enabled) ∧
      (d.password = none →
        ((getEntry (updateHost st hostId d).state.secrets hostId).getD {}).password =
          ((getEntry st.secrets hostId).getD {}).password) ∧
      (d.ssh_key_path = none →
        ((getEntry (updateHost st hostId d).state.secrets hostId).getD {}).ssh_key_path =
          ((getEntry st.secrets hostId).getD {}).ssh_key_path) ∧
      (d.api_key = none →
        ((getEntry (updateHost st hostId d).state.secrets hostId).getD {}).api_key =
          ((getEntry st.secrets hostId).getD {}).api_key) := by
  obtain ⟨l2, hl2, hfind⟩ := updateHostsList_find st.hosts hostId d h0 hf
  have hid : h0.id = hostId := by
    have := List.find?_some hf
    simpa using this
  have hsec : (updateHost st hostId d).state.secrets =
      setEntry st.secrets hostId
        (mergeSecrets ((getEntry st.secrets hostId).getD {}) d) := by
    simp [updateHost, hl2]
  refine ⟨applyUpdate h0 d hostId, ?_, by simp [applyUpdate, hid], rfl,
    ?_, ?_, ?_, ?_, ?_, ?_, ?_, ?_, ?_, ?_, ?_, ?_, ?_⟩
  · simpa [updateHost, hl2] using hfind
  all_goals intro hn
  · simp [applyUpdate, hn]
  · simp [applyUpdate, hn]
  · simp [applyUpdate, hn]
  · simp [applyUpdate, hn]
  · simp [applyUpdate, hn]
  · simp [applyUpdate, hn]
  · simp [applyUpdate, hn]
  · simp [applyUpdate, hn]
  · simp [applyUpdate, hn]
  · simp [applyUpdate, hn]
  · rw [hsec, getEntry_setEntry]
    simp [mergeSecrets, hn]
  · rw [hsec, getEntry_setEntry]
    simp [mergeSecrets, hn]
  · rw [hsec, getEntry_setEntry]
    simp [mergeSecrets, hn]

/-- Witness for C7: an empty update of a stored host retains every field. -/
theorem c7_witness :
    ∃ h1, (updateHost exState1 "h1" {}).state.hosts.find? (fun h => h.id == "h1") = some h1 ∧
      h1.id = (exHost "h1").id ∧ h1.created_at = (exHost "h1").created_at ∧
      ((HostData.name {}) = none → h1.name = (exHost "h1").name) ∧
      ((HostData.hostType {}) = none → h1.hostType = (exHost "h1").hostType) ∧
      ((HostData.host {}) = none → h1.host = (exHost "h1").host) ∧
      ((HostData.port {}) = none → h1.port = (exHost "h1").port) ∧
      ((HostData.username {}) = none → h1.username = (exHost "h1").username) ∧
      ((HostData.auth_type {}) = none → h1.auth_type = (exHost "h1").auth_type) ∧
      ((HostData.n8n_url {}) = none → h1.n8n_url = (exHost "h1").n8n_url) ∧
      ((HostData.default_instance {}) = none →
        h1.default_instance = (exHost "h1").default_instance) ∧
      ((HostData.manager_path {}) = none → h1.manager_path = (exHost "h1").manager_path) ∧
      ((HostData.enabled {}) = none → h1.enabled = (exHost "h1").enabled) ∧
      ((HostData.password {}) = none →
        ((getEntry (updateHost exState1 "h1" {}).state.secrets "h1").getD {}).password =
          ((getEntry exState1.secrets "h1").getD {}).password) ∧
      ((HostData.ssh_key_path {}) = none →
        ((getEntry (updateHost exState1 "h1" {}).state.secrets "h1").getD {}).ssh_key_path =
          ((getEntry exState1.secrets "h1").getD {}).ssh_key_path) ∧
      ((HostData.api_key {}) = none →
        ((getEntry (updateHost exState1 "h1" {}).state.secrets "h1").getD {}).api_key =
          ((getEntry exState1.secrets "h1").getD {}).api_key) :=
  c7_update_frame exState1 "h1" {} (exHost "h1") rfl

/-! ## Orchestrator helper lemmas -/

theorem startsWithStr_append (p a b : String) (h : startsWithStr p a = true) :
    startsWithStr p (a ++ b) = true := by
  simp only [startsWithStr, String.data_append] at *
  rw [List.isPrefixOf_iff_prefix] at *
  exact h.trans (List.prefix_append a.data b.data)

theorem startsWithStr_ne_head (p s : String) (c d : Char) (cp ds : List Char)
    (hp : p.data = c :: cp) (hs : s.data = d :: ds) (h : (c == d) = false) :
    startsWithStr p s = false := by
  simp [startsWithStr, hp, hs, List.isPrefixOf, h]

theorem startsWithStr_false_append (p a b : String) (c d : Char) (cp ds : List Char)
    (hp : p.data = c :: cp) (ha : a.data = d :: ds) (h : (c == d) = false) :
    startsWithStr p (a ++ b) = false := by
  refine startsWithStr_ne_head p (a ++ b) c d cp (ds ++ b.data) hp ?_ h
  rw [String.data_append, ha]
  rfl

theorem rm_not_head_backupFullCmd (bt : String) (cn : Option String) (iv il : Bool) :
    startsWithStr "rm " (backupFullCmd bt cn iv il) = false := by
  refine startsWithStr_ne_head _ _ 'r' 'c' "m ".data
    ("hmod +x /tmp/backup_n8n.sh /tmp/docker_backup.sh".data ++
      (" && " ++ buildBackupCmd bt cn iv il).data) rfl rfl (by decide)

theorem getLast?_append_singleton (l : List α) (a : α) : (l ++ [a]).getLast? = some a :=
  List.getLast?_concat l

theorem isSentinelLine_backupSentinel (code : Int) :
    isSentinelLine (backupSentinel code) = true := by
  by_cases hc : code = 0
  · subst hc
    decide
  · unfold backupSentinel
    rw [if_neg hc]
    simp only [isSentinelLine, Bool.or_eq_true]
    right
    exact startsWithStr_append "ERROR" "ERROR: Backup failed with exit code "
      (toString code) (by decide)

theorem isSentinelLine_restoreSentinel (code : Int) :
    isSentinelLine (restoreSentinel code) = true := by
  by_cases hc : code = 0
  · subst hc
    decide
  · unfold restoreSentinel
    rw [if_neg hc]
    simp only [isSentinelLine, Bool.or_eq_true]
    right
    exact startsWithStr_append "ERROR" "ERROR: Restore failed with exit code "
      (toString code) (by decide)

theorem backupSentinel_success_iff (code : Int) :
    startsWithStr "SUCCESS" (backupSentinel code) = true ↔ code = 0 := by
  by_cases hc : code = 0
  · subst hc
    decide
  · unfold backupSentinel
    rw [if_neg hc]
    rw [startsWithStr_false_append "SUCCESS" "ERROR: Backup failed with exit code "
      (toString code) 'S' 'E' "UCCESS".data "RROR: Backup failed with exit code ".data
      rfl rfl (by decide)]
    simp [hc]

theorem backupSentinel_error_iff (code : Int) :
    startsWithStr "ERROR" (backupSentinel code) = true ↔ code ≠ 0 := by
  by_cases hc : code = 0
  · subst hc
    decide
  · unfold backupSentinel
    rw [if_neg hc]
    have hpos := startsWithStr_append "ERROR" "ERROR: Backup failed with exit code "
      (toString code) (by decide)
    simp [hpos, hc]

theorem restoreRemote_upload_fail (bn rt : String) (cn : Option String) (rec : Bool)
    (hid fname : String) (h : String → UploadResult) (au : UploadResult) (exec : CmdResult)
    (hfail : au.success = false) :
    (restoreRemote bn rt cn rec hid (some fname) h au exec).2 = [] ∧
    (restoreRemote bn rt cn rec hid (some fname) h au exec).1.getLast? =
      some ("ERROR: Failed to upload backup: " ++ optStr au.error) := by
  constructor
  · simp [restoreRemote, hfail]
  · simp only [restoreRemote, hfail, Bool.not_false, if_pos]
    exact getLast?_append_singleton _ _

/-! ## Orchestrator claim theorems -/

/-- C3 counterexample: a remote backup whose command exits with status zero
but whose output carries no artifact-marker line ends in the failure line,
yet no remote cleanup command is executed — the only command ever executed
is the chmod-and-backup composite, and no executed command is an `rm`. -/
theorem c3_counterexample :
    (backupRemote "h1" "docker" none false false "/b" (fun _ => ⟨true, none⟩)
      ⟨true, some 0, some "hello", none⟩ ⟨true, none⟩).1.getLast? =
        some "ERROR: Remote backup failed (exit code: 0)" ∧
    ((backupRemote "h1" "docker" none false false "/b" (fun _ => ⟨true, none⟩)
      ⟨true, some 0, some "hello", none⟩ ⟨true, none⟩).2.all
        fun c => !(startsWithStr "rm " c)) = true := by
  constructor
  · decide
  · decide

/-- C3 as amended: when the remote command reports success but the output
scan finds no artifact marker, the workflow ends with the remote-backup
failure line and returns at once: the only executed remote command is the
backup composite, and in particular no cleanup (`rm`) command runs. -/
theorem c3_no_marker_fails_without_cleanup (hostId bt : String) (cn : Option String)
    (iv il : Bool) (bdir : String) (h : String → UploadResult) (exec : CmdResult)
    (dl : UploadResult) (hsucc : exec.success = true)
    (hmark : (outPart exec.output).2 = none) :
    (backupRemote hostId bt cn iv il bdir h exec dl).1.getLast? =
      some ("ERROR: Remote backup failed (exit code: " ++ optIntStr exec.exit_code ++ ")") ∧
    (backupRemote hostId bt cn iv il bdir h exec dl).2 = [backupFullCmd bt cn iv il] ∧
    ∀ c ∈ (backupRemote hostId bt cn iv il bdir h exec dl).2,
      startsWithStr "rm " c = false := by
  have hcmds : (backupRemote hostId bt cn iv il bdir h exec dl).2 =
      [backupFullCmd bt cn iv il] := by
    simp [backupRemote, hsucc, hmark]
  refine ⟨?_, hcmds, ?_⟩
  · simp only [backupRemote, hsucc, hmark, Option.isNone_none, Bool.not_true,
      Bool.false_or, if_pos]
    exact getLast?_append_singleton _ _
  · intro c hc
    rw [hcmds, List.mem_singleton] at hc
    subst hc
    exact rm_not_head_backupFullCmd bt cn iv il

/-- Witness for C3's amended theorem at the counterexample's concrete
input. -/
theorem c3_witness :
    (backupRemote "h1" "docker" none false false "/b" (fun _ => ⟨true, none⟩)
      ⟨true, some 0, some "hello", none⟩ ⟨true, none⟩).1.getLast? =
        some ("ERROR: Remote backup failed (exit code: " ++ optIntStr (some 0) ++ ")") ∧
    (backupRemote "h1" "docker" none false false "/b" (fun _ => ⟨true, none⟩)
      ⟨true, some 0, some "hello", none⟩ ⟨true, none⟩).2 =
        [backupFullCmd "docker" none false false] ∧
    ∀ c ∈ (backupRemote "h1" "docker" none false false "/b" (fun _ => ⟨true, none⟩)
      ⟨true, some 0, some "hello", none⟩ ⟨true, none⟩).2,
      startsWithStr "rm " c = false :=
  c3_no_marker_fails_without_cleanup "h1" "docker" none false false "/b"
    (fun _ => ⟨true, none⟩) ⟨true, some 0, some "hello", none⟩ ⟨true, none⟩ rfl (by decide)

/-- C4 counterexample: a remote restore whose backup-artifact upload fails
aborts with the upload-failure line, but executes no remote command at all —
in particular the remote cleanup command is not attempted. -/
theorem c4_counterexample :
    (restoreRemote "b" "docker" none false "h1" (some "b.tar.gz") (fun _ => ⟨true, none⟩)
      ⟨false, some "boom"⟩ ⟨true, none, none, none⟩).2 = [] ∧
    (restoreRemote "b" "docker" none false "h1" (some "b.tar.gz") (fun _ => ⟨true, none⟩)
      ⟨false, some "boom"⟩ ⟨true, none, none, none⟩).1.getLast? =
        some "ERROR: Failed to upload backup: boom" := by
  constructor
  · decide
  · decide

/-- C4 as amended: when the artifact upload fails, the restore workflow
aborts before the remote execution step with an overall failure line, and no
remote command — neither the restore composite nor any cleanup — is
attempted. -/
theorem c4_upload_fail_aborts_without_cleanup (bn rt : String) (cn : Option String)
    (rec : Bool) (hid fname : String) (h : String → UploadResult) (au : UploadResult)
    (exec : CmdResult) (hfail : au.success = false) :
    (restoreRemote bn rt cn rec hid (some fname) h au exec).2 = [] ∧
    (restoreRemote bn rt cn rec hid (some fname) h au exec).1.getLast? =
      some ("ERROR: Failed to upload backup: " ++ optStr au.error) :=
  restoreRemote_upload_fail bn rt cn rec hid fname h au exec hfail

/-- Witness for C4's amended theorem. -/
theorem c4_witness :
    (restoreRemote "b" "docker" none false "h1" (some "b.tar.gz") (fun _ => ⟨true, none⟩)
      ⟨false, some "boom"⟩ ⟨true, none, none, none⟩).2 = [] ∧
    (restoreRemote "b" "docker" none false "h1" (some "b.tar.gz") (fun _ => ⟨true, none⟩)
      ⟨false, some "boom"⟩ ⟨true, none, none, none⟩).1.getLast? =
        some ("ERROR: Failed to upload backup: " ++ optStr (some "boom")) :=
  c4_upload_fail_aborts_without_cleanup "b" "docker" none false "h1" "b.tar.gz"
    (fun _ => ⟨true, none⟩) ⟨false, some "boom"⟩ ⟨true, none, none, none⟩ rfl

/-- C10: the helper-script upload results are ignored in both remote
workflows — replacing them by any other results leaves the entire observable
behaviour (progress lines and executed commands) unchanged, so a failed
helper upload neither aborts nor produces an error line — while the
backup-artifact upload of the restore workflow is the one transfer whose
result is checked, a failure of which ends the workflow with an upload
failure line. -/
theorem c10_helper_uploads_ignored :
    (∀ (hostId bt : String) (cn : Option String) (iv il : Bool) (bdir : String)
      (h1 h2 : String → UploadResult) (exec : CmdResult) (dl : UploadResult),
      backupRemote hostId bt cn iv il bdir h1 exec dl =
        backupRemote hostId bt cn iv il bdir h2 exec dl) ∧
    (∀ (bn rt : String) (cn : Option String) (rec : Bool) (hid : String)
      (bf : Option String) (h1 h2 : String → UploadResult) (au : UploadResult)
      (exec : CmdResult),
      restoreRemote bn rt cn rec hid bf h1 au exec =
        restoreRemote bn rt cn rec hid bf h2 au exec) ∧
    (∀ (bn rt : String) (cn : Option String) (rec : Bool) (hid fname : String)
      (h : String → UploadResult) (au : UploadResult) (exec : CmdResult),
      au.success = false →
      (restoreRemote bn rt cn rec hid (some fname) h au exec).1.getLast? =
        some ("ERROR: Failed to upload backup: " ++ optStr au.error)) := by
  refine ⟨fun _ _ _ _ _ _ _ _ _ _ => rfl, fun _ _ _ _ _ _ _ _ _ _ => rfl, ?_⟩
  intro bn rt cn rec hid fname h au exec hfail
  exact (restoreRemote_upload_fail bn rt cn rec hid fname h au exec hfail).2

/-- Witness for C10 at concrete inputs: all-failing helper uploads behave
exactly like all-succeeding ones, and a failed artifact upload ends the
restore with the upload failure line. -/
theorem c10_witness :
    backupRemote "h1" "docker" none false false "/b" (fun _ => ⟨false, some "x"⟩)
        ⟨true, some 0, some "out", none⟩ ⟨true, none⟩ =
      backupRemote "h1" "docker" none false false "/b" (fun _ => ⟨true, none⟩)
        ⟨true, some 0, some "out", none⟩ ⟨true, none⟩ ∧
    (restoreRemote "b" "docker" none false "h1" (some "f.zip") (fun _ => ⟨false, some "x"⟩)
        ⟨false, some "e"⟩ ⟨true, none, none, none⟩).1.getLast? =
      some ("ERROR: Failed to upload backup: " ++ optStr (some "e")) :=
  ⟨c10_helper_uploads_ignored.1 "h1" "docker" none false false "/b"
      (fun _ => ⟨false, some "x"⟩) (fun _ => ⟨true, none⟩)
      ⟨true, some 0, some "out", none⟩ ⟨true, none⟩,
   c10_helper_uploads_ignored.2.2 "b" "docker" none false "h1" "f.zip"
      (fun _ => ⟨false, some "x"⟩) ⟨false, some "e"⟩ ⟨true, none, none, none⟩ rfl⟩

/-- C8 counterexample: a local restore that takes the API-based path (v2
detected, API key supplied) terminates with the import-summary banner, not
with a SUCCESS or ERROR sentinel line. -/
theorem c8_counterexample :
    (restoreBackupLocal (some "n8n") (some "KEY")
        ⟨true, "2.0.0", true⟩ ⟨true, false, true, "workflows", []⟩
        "mybackup" "scripts/restore_n8n.sh" true (.ok [] 0)).getLast? = some eqBanner ∧
    isSentinelLine eqBanner = false := by
  constructor
  · decide
  · decide

/-- C8 as amended: local script-based invocations satisfy the sentinel
contract — the output is the cleaned child output followed by exactly one
sentinel line, SUCCESS exactly when the exit status is zero and ERROR
exactly otherwise — while the API-based restore path terminates with the
import-summary banner instead. -/
theorem c8_script_sentinel :
    (∀ (sp : String) (lines : List String) (code : Int),
      (∀ l ∈ streamLines lines, isSentinelLine l = false) →
      createBackupLocal sp true (.ok lines code) = streamLines lines ++ [backupSentinel code] ∧
      (createBackupLocal sp true (.ok lines code)).countP (fun l => isSentinelLine l) = 1 ∧
      (createBackupLocal sp true (.ok lines code)).getLast? = some (backupSentinel code) ∧
      (startsWithStr "SUCCESS" (backupSentinel code) = true ↔ code = 0) ∧
      (startsWithStr "ERROR" (backupSentinel code) = true ↔ code ≠ 0)) ∧
    (∀ (sp : String) (lines : List String) (code : Int),
      (∀ l ∈ streamLines lines, isSentinelLine l = false) →
      restoreCli sp true (.ok lines code) = streamLines lines ++ [restoreSentinel code] ∧
      (restoreCli sp true (.ok lines code)).countP (fun l => isSentinelLine l) = 1 ∧
      (restoreCli sp true (.ok lines code)).getLast? = some (restoreSentinel code)) := by
  constructor
  · intro sp lines code hno
    refine ⟨rfl, ?_, getLast?_append_singleton _ _, backupSentinel_success_iff code,
      backupSentinel_error_iff code⟩
    show ((streamLines lines ++ [backupSentinel code]).countP fun l => isSentinelLine l) = 1
    rw [List.countP_append]
    rw [List.countP_eq_zero.2 (fun l hl => by simp [hno l hl])]
    simp [List.countP, List.countP.go, isSentinelLine_backupSentinel code]
  · intro sp lines code hno
    refine ⟨rfl, ?_, getLast?_append_singleton _ _⟩
    show ((streamLines lines ++ [restoreSentinel code]).countP fun l => isSentinelLine l) = 1
    rw [List.countP_append]
    rw [List.countP_eq_zero.2 (fun l hl => by simp [hno l hl])]
    simp [List.countP, List.countP.go, isSentinelLine_restoreSentinel code]

/-- Witness for C8's amended theorem on a concrete child output. -/
theorem c8_witness :
    createBackupLocal "p" true (.ok ["hi"] 0) = streamLines ["hi"] ++ [backupSentinel 0] ∧
    (createBackupLocal "p" true (.ok ["hi"] 0)).countP (fun l => isSentinelLine l) = 1 ∧
    (createBackupLocal "p" true (.ok ["hi"] 0)).getLast? = some (backupSentinel 0) ∧
    (startsWithStr "SUCCESS" (backupSentinel 0) = true ↔ (0 : Int) = 0) ∧
    (startsWithStr "ERROR" (backupSentinel 0) = true ↔ (0 : Int) ≠ 0) :=
  c8_script_sentinel.1 "p" ["hi"] 0 (by decide)

end N8nMgr
